import Mathlib

/-!
Shallow embedding of src/cnbc_aggregator.py (class CNBCAggregator).

Text is modelled as List Char (Python strings are sequences of code
points).  External collaborators are explicit parameters:

* the HTTP fetch of the web-news page may raise, or return a status
  code together with the elements selected by the Card-title selector;
* per-element extraction (get_text, get of the href attribute) may
  raise, so each ArticleElem carries Except-valued accessors;
* feedparser.parse for the video feed is an Except value — in the
  source this call and the entry-field accesses sit OUTSIDE any try
  block, so a failure there is modelled as an uncaught exception;
* the transcript API is a function from a video id to an Except value
  holding the text of each caption segment;
* feedparser.parse for the podcast feed is an Except value; in the
  source this call sits inside a try block, so its failure is caught
  by the adapter;
* the current date string is a parameter named today.

The field data_store is threaded explicitly: each adapter maps a store
to the store with its records appended, and run chains the three
adapters starting from the empty store, propagating the video adapter
uncaught exception as an error.
-/

abbrev Str := List Char

deriving instance DecidableEq for Except

/-- Does hay begin with needle?  Models the Python startswith test. -/
def startsWith : Str → Str → Bool
  | [], _ => true
  | _ :: _, [] => false
  | a :: as, b :: bs => a == b && startsWith as bs

/-- Python substring containment: needle in hay. -/
def containsSub (needle : Str) : Str → Bool
  | [] => startsWith needle []
  | c :: rest => startsWith needle (c :: rest) || containsSub needle rest

/-- Python lower(): per-character lowering, adequate for ASCII titles. -/
def lowerStr (s : Str) : Str := s.map Char.toLower

/-- Python join of a list of strings with a single space. -/
def joinSpace (xs : List Str) : Str := List.intercalate [' '] xs

/-- Source-type literal for web records (line 54). -/
def srcWeb : Str := "Web News".data

/-- Source-type literal for video records (line 102). -/
def srcVideo : Str := "YouTube Video".data

/-- Source-type literal for podcast records (line 136). -/
def srcPodcast : Str := "Podcast RSS".data

/-- Fixed web snippet placeholder (line 57). -/
def snippetWebPlaceholder : Str := "N/A (Click link for full text)".data

/-- Site origin prefixed to relative links (line 51). -/
def originCNBC : Str := "https://www.cnbc.com".data

/-- Literal tested by startswith on line 50. -/
def httpLit : Str := "http".data

/-- Ellipsis marker appended to truncated snippets (lines 99 and 133). -/
def ellipsis : Str := "...".data

/-- Keyword literal number one (line 85). -/
def kwCramer : Str := "cramer".data

/-- Keyword literal number two (line 85). -/
def kwMorning : Str := "morning".data

/-- Keyword literal number three (line 85). -/
def kwClub : Str := "club".data

/-- Keyword literal number four (line 85). -/
def kwInvesting : Str := "investing".data

/-- Keyword literal number five (line 85). -/
def kwStock : Str := "stock".data

/-- Keyword list of line 85. -/
def keywords : List Str := [kwCramer, kwMorning, kwClub, kwInvesting, kwStock]

/-- One row of data_store (the dict built by each adapter). -/
structure Record where
  Source_Type : Str
  Timestamp : Str
  Headline : Str
  Snippet : Str
  Link : Option Str
deriving DecidableEq

/-- An element matched by the Card-title selector.  The field text
models get_text with strip, and href models the attribute lookup
(none = attribute missing); either access may raise, which the
per-candidate try block catches. -/
structure ArticleElem where
  text : Except Unit Str
  href : Except Unit (Option Str)
deriving DecidableEq

/-- Lines 49 to 51: when link is truthy and does not start with http,
prefix the site origin.  Python truthiness: None and the empty string
are both falsy, so both are left unchanged. -/
def normalizeLink : Option Str → Option Str
  | none => none
  | some l =>
      if l ≠ [] ∧ startsWith httpLit l = false then some (originCNBC ++ l)
      else some l

/-- Lines 45 to 62: the body of the per-article try block.  The value
none models the except-continue path (candidate silently dropped). -/
def processArticle (today : Str) (a : ArticleElem) : Option Record :=
  match a.text, a.href with
  | Except.ok title, Except.ok link =>
      some { Source_Type := srcWeb
             Timestamp := today
             Headline := title
             Snippet := snippetWebPlaceholder
             Link := normalizeLink link }
  | _, _ => none

/-- Records appended by fetch_web_news (lines 27 to 67): on a raised
fetch, or a non-200 status, the outer try block and the status check
yield nothing; otherwise the first 15 selected elements are processed,
dropping per-candidate failures. -/
def webRecords (today : Str) (fetchRes : Except Unit (Nat × List ArticleElem)) :
    List Record :=
  match fetchRes with
  | Except.error _ => []
  | Except.ok (status, articles) =>
      if status ≠ 200 then []
      else (articles.take 15).filterMap (processArticle today)

/-- Method fetch_web_news as a transformer of data_store. -/
def fetch_web_news (today : Str) (fetchRes : Except Unit (Nat × List ArticleElem))
    (store : List Record) : List Record :=
  store ++ webRecords today fetchRes

/-- An entry of the YouTube RSS feed (lines 87 to 89 access these fields). -/
structure VideoEntry where
  yt_videoid : Str
  title : Str
  published : Str
  link : Str
deriving DecidableEq

/-- Lines 88 to 115: processing of one feed entry.  First component:
was a transcript fetch attempted?  Second: the record appended, if any.
The keyword filter guards both the fetch and the append; a transcript
failure is caught per-entry (lines 113 to 115). -/
def processEntry (tr : Str → Except Unit (List Str)) (e : VideoEntry) :
    Bool × Option Record :=
  if keywords.any (fun k => containsSub k (lowerStr e.title)) then
    match tr e.yt_videoid with
    | Except.ok segs =>
        let full_text := joinSpace segs
        let snippet := full_text.take 500 ++ ellipsis
        (true, some { Source_Type := srcVideo
                      Timestamp := e.published
                      Headline := e.title
                      Snippet := snippet
                      Link := some e.link })
    | Except.error _ => (true, none)
  else (false, none)

/-- Records appended by the video loop over the first 5 entries (line 87). -/
def videoRecords (entries : List VideoEntry) (tr : Str → Except Unit (List Str)) :
    List Record :=
  (entries.take 5).filterMap (fun e => (processEntry tr e).2)

/-- Method fetch_youtube_intelligence (lines 72 to 115) as a store
transformer.  The feedparser.parse call on line 83 is NOT inside a try
block, so its failure escapes the adapter, modelled as an error. -/
def fetch_youtube_intelligence (parseRes : Except Unit (List VideoEntry))
    (tr : Str → Except Unit (List Str)) (store : List Record) :
    Except Unit (List Record) :=
  match parseRes with
  | Except.error e => Except.error e
  | Except.ok entries => Except.ok (store ++ videoRecords entries tr)

/-- An entry of the podcast RSS feed.  The field descriptionText models
the plain text extracted from the description markup (line 133);
published is none when the published key is absent (the fallback of
line 130). -/
structure PodcastEntry where
  title : Str
  link : Str
  published : Option Str
  descriptionText : Str
deriving DecidableEq

/-- Records appended by fetch_podcast_intelligence (lines 120 to 146):
the whole body is inside a try block, so a feed-level parse failure
yields nothing; otherwise the first 3 entries each produce a record. -/
def podRecords (today : Str) (parseRes : Except Unit (List PodcastEntry)) :
    List Record :=
  match parseRes with
  | Except.error _ => []
  | Except.ok entries =>
      (entries.take 3).map (fun e =>
        { Source_Type := srcPodcast
          Timestamp := e.published.getD today
          Headline := e.title
          Snippet := e.descriptionText.take 400 ++ ellipsis
          Link := some e.link })

/-- Method fetch_podcast_intelligence as a store transformer. -/
def fetch_podcast_intelligence (today : Str)
    (parseRes : Except Unit (List PodcastEntry)) (store : List Record) :
    List Record :=
  store ++ podRecords today parseRes

/-- Method run (lines 151 to 159): the three adapters in fixed order,
threading data_store from the empty list; an exception escaping the
video adapter aborts the run. -/
def run (today : Str) (fetchRes : Except Unit (Nat × List ArticleElem))
    (vparse : Except Unit (List VideoEntry)) (tr : Str → Except Unit (List Str))
    (pparse : Except Unit (List PodcastEntry)) : Except Unit (List Record) :=
  match fetch_youtube_intelligence vparse tr (fetch_web_news today fetchRes []) with
  | Except.error e => Except.error e
  | Except.ok store => Except.ok (fetch_podcast_intelligence today pparse store)

/-- Source rank used to state the output ordering: web records rank 0,
video records rank 1, everything else (here podcast) rank 2. -/
def sourceRank (r : Record) : Nat :=
  if r.Source_Type = srcWeb then 0
  else if r.Source_Type = srcVideo then 1
  else 2

/-- Concrete title matching the cramer keyword, used in witnesses. -/
def titleCramerPicks : Str := "Cramer Picks of the Week".data

/-- Concrete title matching no keyword, used in witnesses. -/
def titleWeather : Str := "Weather Report at Noon".data

/-- Concrete date string used in witnesses. -/
def todayLit : Str := "2025-01-02".data

/-- Concrete publication timestamp used in witnesses. -/
def pubDateLit : Str := "2025-01-01T08:00:00".data

/-- Concrete video id used in witnesses. -/
def vidIdLit : Str := "abc123".data

/-- Concrete video link used in witnesses. -/
def vidLinkLit : Str := "https://www.youtube.com/watch?v=abc123".data

/-- Concrete headline used in witnesses. -/
def headlineLit : Str := "Markets rally".data

/-- Concrete podcast title used in witnesses. -/
def podTitleLit : Str := "Episode 1".data

/-- Concrete podcast link used in witnesses. -/
def podLinkLit : Str := "https://feeds.simplecast.com/ep1".data

/-- Concrete podcast description text used in witnesses. -/
def podDescLit : Str := "Stocks fell today.".data

/-- Transcript collaborator that returns an empty segment list for
every video id. -/
def trEmptyOk : Str → Except Unit (List Str) := fun _ => Except.ok []

/-- Concrete video feed entry whose title matches the cramer keyword. -/
def witVideoEntry : VideoEntry :=
  { yt_videoid := vidIdLit, title := titleCramerPicks,
    published := pubDateLit, link := vidLinkLit }

/-- Concrete video feed entry whose title matches no keyword. -/
def witVideoEntryNoKw : VideoEntry :=
  { yt_videoid := vidIdLit, title := titleWeather,
    published := pubDateLit, link := vidLinkLit }

/-- The record the video adapter produces from witVideoEntry under an
empty transcript: the snippet is exactly the ellipsis marker. -/
def witVideoRec : Record :=
  { Source_Type := srcVideo, Timestamp := pubDateLit,
    Headline := titleCramerPicks, Snippet := ellipsis, Link := some vidLinkLit }

/-- Concrete podcast feed entry used in witnesses. -/
def witPodEntry : PodcastEntry :=
  { title := podTitleLit, link := podLinkLit, published := none,
    descriptionText := podDescLit }

/-- The record the podcast adapter produces from witPodEntry. -/
def witPodRec : Record :=
  { Source_Type := srcPodcast, Timestamp := todayLit, Headline := podTitleLit,
    Snippet := podDescLit ++ ellipsis, Link := some podLinkLit }

/-- Concrete article element with a text but no href attribute. -/
def elemNoHref : ArticleElem := ⟨Except.ok headlineLit, Except.ok none⟩

/-- The record the web adapter produces from elemNoHref. -/
def recNoHref : Record :=
  { Source_Type := srcWeb, Timestamp := todayLit, Headline := headlineLit,
    Snippet := snippetWebPlaceholder, Link := none }

/-- Concrete article element whose extracted text is the empty string. -/
def elemEmptyTitle : ArticleElem := ⟨Except.ok [], Except.ok none⟩

/-- The record the web adapter produces from elemEmptyTitle: its
headline is empty. -/
def recEmptyHeadline : Record :=
  { Source_Type := srcWeb, Timestamp := todayLit, Headline := [],
    Snippet := snippetWebPlaceholder, Link := none }

/-- Concrete article element whose href attribute is present but empty. -/
def elemEmptyHref : ArticleElem := ⟨Except.ok headlineLit, Except.ok (some [])⟩

section Lemmas

/-- A list always begins with itself followed by anything. -/
theorem startsWith_append_self (s t : Str) : startsWith s (s ++ t) = true := by
  induction s with
  | nil => rfl
  | cons a as ih => simp [startsWith, ih]

/-- Shape of a successfully processed article element. -/
theorem processArticle_eq_some {today : Str} {a : ArticleElem} {r : Record}
    (h : processArticle today a = some r) :
    ∃ title link, a.text = Except.ok title ∧ a.href = Except.ok link ∧
      r = { Source_Type := srcWeb, Timestamp := today, Headline := title,
            Snippet := snippetWebPlaceholder, Link := normalizeLink link } := by
  obtain ⟨t, l⟩ := a
  cases t with
  | error e => simp [processArticle] at h
  | ok title =>
    cases l with
    | error e => simp [processArticle] at h
    | ok link =>
      refine ⟨title, link, rfl, rfl, ?_⟩
      simpa [processArticle] using h.symm

/-- Shape of a record a member of the web adapter output. -/
theorem mem_webRecords {today : Str} {f : Except Unit (Nat × List ArticleElem)}
    {r : Record} (h : r ∈ webRecords today f) :
    ∃ a, processArticle today a = some r := by
  unfold webRecords at h
  cases f with
  | error e => simp at h
  | ok p =>
    obtain ⟨status, articles⟩ := p
    by_cases hs : status ≠ 200
    · simp [hs] at h
    · simp only [hs, if_false] at h
      obtain ⟨a, _, ha⟩ := List.mem_filterMap.mp h
      exact ⟨a, ha⟩

/-- Shape of a record produced from one video feed entry. -/
theorem processEntry_snd_eq_some {tr : Str → Except Unit (List Str)}
    {e : VideoEntry} {r : Record} (h : (processEntry tr e).2 = some r) :
    keywords.any (fun k => containsSub k (lowerStr e.title)) = true ∧
    ∃ segs, tr e.yt_videoid = Except.ok segs ∧
      r = { Source_Type := srcVideo, Timestamp := e.published,
            Headline := e.title,
            Snippet := (joinSpace segs).take 500 ++ ellipsis,
            Link := some e.link } := by
  unfold processEntry at h
  by_cases hk : keywords.any (fun k => containsSub k (lowerStr e.title)) = true
  · refine ⟨hk, ?_⟩
    rw [if_pos hk] at h
    cases htr : tr e.yt_videoid with
    | error err => rw [htr] at h; simp at h
    | ok segs =>
      rw [htr] at h
      refine ⟨segs, rfl, ?_⟩
      simpa using h.symm
  · rw [if_neg hk] at h
    simp at h

/-- Shape of a record a member of the video adapter output. -/
theorem mem_videoRecords {entries : List VideoEntry}
    {tr : Str → Except Unit (List Str)} {r : Record}
    (h : r ∈ videoRecords entries tr) :
    ∃ e ∈ entries.take 5,
      keywords.any (fun k => containsSub k (lowerStr e.title)) = true ∧
      ∃ segs, tr e.yt_videoid = Except.ok segs ∧
        r = { Source_Type := srcVideo, Timestamp := e.published,
              Headline := e.title,
              Snippet := (joinSpace segs).take 500 ++ ellipsis,
              Link := some e.link } := by
  obtain ⟨e, he, hpe⟩ := List.mem_filterMap.mp h
  obtain ⟨hk, segs, htr, hr⟩ := processEntry_snd_eq_some hpe
  exact ⟨e, he, hk, segs, htr, hr⟩

/-- Shape of a record a member of the podcast adapter output. -/
theorem mem_podRecords {today : Str} {p : Except Unit (List PodcastEntry)}
    {r : Record} (h : r ∈ podRecords today p) :
    ∃ e : PodcastEntry,
      r = { Source_Type := srcPodcast, Timestamp := e.published.getD today,
               Headline := e.title,
               Snippet := e.descriptionText.take 400 ++ ellipsis,
               Link := some e.link } := by
  unfold podRecords at h
  cases p with
  | error e => simp at h
  | ok entries =>
    obtain ⟨e, _, he⟩ := List.mem_map.mp h
    exact ⟨e, he.symm⟩

end Lemmas

/-- C4: each adapter appends at most its fixed cap: the web adapter at
most 15 records, the video adapter at most one record per scanned entry
(at most 5 entries scanned), the podcast adapter at most 3 records. -/
theorem C4_adapter_caps (today : Str) (f : Except Unit (Nat × List ArticleElem))
    (entries : List VideoEntry) (tr : Str → Except Unit (List Str))
    (pparse : Except Unit (List PodcastEntry)) (store : List Record) :
    (fetch_web_news today f store).length ≤ store.length + 15 ∧
    (videoRecords entries tr).length ≤ (entries.take 5).length ∧
    (entries.take 5).length ≤ 5 ∧
    (fetch_podcast_intelligence today pparse store).length ≤ store.length + 3 := by
  refine ⟨?_, ?_, ?_, ?_⟩
  · have hw : (webRecords today f).length ≤ 15 := by
      unfold webRecords
      cases f with
      | error e => simp
      | ok p =>
        obtain ⟨status, articles⟩ := p
        by_cases hs : status ≠ 200
        · simp [hs]
        · simp only [hs, if_false]
          calc ((articles.take 15).filterMap (processArticle today)).length
              ≤ (articles.take 15).length := List.length_filterMap_le _ _
            _ ≤ 15 := by simp [List.length_take]
    simp only [fetch_web_news, List.length_append]
    omega
  · exact List.length_filterMap_le _ _
  · simp [List.length_take]
  · have hp : (podRecords today pparse).length ≤ 3 := by
      unfold podRecords
      cases pparse with
      | error e => simp
      | ok entries =>
        simp [List.length_take]
    simp only [fetch_podcast_intelligence, List.length_append]
    omega

/-- C7: on a feed-level parse failure the podcast adapter contributes
zero records and leaves the dataset exactly as it was. -/
theorem C7_podcast_failure_isolated (today : Str) (e : Unit)
    (store : List Record) :
    podRecords today (Except.error e) = [] ∧
    fetch_podcast_intelligence today (Except.error e) store = store := by
  constructor
  · rfl
  · simp [fetch_podcast_intelligence, podRecords]

/-- C5: a scanned video feed entry whose lower-cased title contains no
keyword triggers no transcript fetch and produces no record. -/
theorem C5_no_keyword_no_fetch (tr : Str → Except Unit (List Str))
    (e : VideoEntry)
    (h : keywords.any (fun k => containsSub k (lowerStr e.title)) = false) :
    processEntry tr e = (false, none) := by
  unfold processEntry
  rw [if_neg (by simp [h])]

/-- C5 witness: a concrete non-matching entry is fully skipped. -/
theorem C5_no_keyword_no_fetch_witness :
    processEntry trEmptyOk witVideoEntryNoKw = (false, none) :=
  C5_no_keyword_no_fetch trEmptyOk witVideoEntryNoKw (by decide)

/-- C6: every video record snippet has at most 503 characters (500 plus
the 3-character ellipsis) and every podcast record snippet has at most
403 characters (400 plus the ellipsis). -/
theorem C6_snippet_bounds (entries : List VideoEntry)
    (tr : Str → Except Unit (List Str)) (today : Str)
    (pparse : Except Unit (List PodcastEntry)) :
    (∀ r ∈ videoRecords entries tr, r.Snippet.length ≤ 503) ∧
    (∀ r ∈ podRecords today pparse, r.Snippet.length ≤ 403) := by
  constructor
  · intro r hr
    obtain ⟨e, _, _, segs, _, hrEq⟩ := mem_videoRecords hr
    subst hrEq
    simp only [List.length_append, List.length_take]
    have : ellipsis.length = 3 := by decide
    omega
  · intro r hr
    obtain ⟨e, hrEq⟩ := mem_podRecords hr
    subst hrEq
    simp only [List.length_append, List.length_take]
    have : ellipsis.length = 3 := by decide
    omega

/-- Concrete relative href used in witnesses. -/
def relLinkLit : Str := "/2025/01/02/markets.html".data

/-- Concrete absolute href used in witnesses. -/
def absLinkLit : Str := "https://www.cnbc.com/2025/01/02/markets.html".data

/-- Concrete article element whose text extraction raises. -/
def elemBadText : ArticleElem := ⟨Except.error (), Except.ok none⟩

/-- Concrete article element whose href extraction raises. -/
def elemBadHref : ArticleElem := ⟨Except.ok headlineLit, Except.error ()⟩

section MoreLemmas

/-- The web adapter on a single well-extracted element. -/
theorem webRecords_singleton (today t : Str) (lnk : Option Str) :
    webRecords today (Except.ok (200, [⟨Except.ok t, Except.ok lnk⟩])) =
      [{ Source_Type := srcWeb, Timestamp := today, Headline := t,
         Snippet := snippetWebPlaceholder, Link := normalizeLink lnk }] := by
  simp [webRecords, processArticle]

/-- Truthy relative links get the origin prefixed. -/
theorem normalizeLink_rel {l : Str} (h1 : l ≠ [])
    (h2 : startsWith httpLit l = false) :
    normalizeLink (some l) = some (originCNBC ++ l) := by
  show (if l ≠ [] ∧ startsWith httpLit l = false then some (originCNBC ++ l)
    else some l) = some (originCNBC ++ l)
  rw [if_pos ⟨h1, h2⟩]

/-- Links that already start with http are unchanged. -/
theorem normalizeLink_abs {l : Str} (h : startsWith httpLit l = true) :
    normalizeLink (some l) = some l := by
  show (if l ≠ [] ∧ startsWith httpLit l = false then some (originCNBC ++ l)
    else some l) = some l
  rw [if_neg]
  rintro ⟨-, hh⟩
  rw [h] at hh
  cases hh

/-- On a successful video feed parse, run collects all three adapter
contributions in order. -/
theorem run_ok (today : Str) (f : Except Unit (Nat × List ArticleElem))
    (entries : List VideoEntry) (tr : Str → Except Unit (List Str))
    (pparse : Except Unit (List PodcastEntry)) :
    run today f (Except.ok entries) tr pparse =
      Except.ok ((webRecords today f ++ videoRecords entries tr) ++
        podRecords today pparse) := by
  simp [run, fetch_youtube_intelligence, fetch_web_news,
    fetch_podcast_intelligence]

/-- Web records rank 0. -/
theorem sourceRank_web {today : Str} {f : Except Unit (Nat × List ArticleElem)}
    {r : Record} (h : r ∈ webRecords today f) : sourceRank r = 0 := by
  obtain ⟨a, ha⟩ := mem_webRecords h
  obtain ⟨t, l, -, -, hr⟩ := processArticle_eq_some ha
  subst hr
  show (if srcWeb = srcWeb then 0 else if srcWeb = srcVideo then 1 else 2) = 0
  decide

/-- Video records rank 1. -/
theorem sourceRank_video {entries : List VideoEntry}
    {tr : Str → Except Unit (List Str)} {r : Record}
    (h : r ∈ videoRecords entries tr) : sourceRank r = 1 := by
  obtain ⟨e, -, -, segs, -, hr⟩ := mem_videoRecords h
  subst hr
  show (if srcVideo = srcWeb then 0 else if srcVideo = srcVideo then 1 else 2) = 1
  decide

/-- Podcast records rank 2. -/
theorem sourceRank_pod {today : Str} {p : Except Unit (List PodcastEntry)}
    {r : Record} (h : r ∈ podRecords today p) : sourceRank r = 2 := by
  obtain ⟨e, hr⟩ := mem_podRecords h
  subst hr
  show (if srcPodcast = srcWeb then 0 else if srcPodcast = srcVideo then 1 else 2) = 2
  decide

/-- The rank never exceeds 2. -/
theorem sourceRank_le_two (r : Record) : sourceRank r ≤ 2 := by
  unfold sourceRank
  split
  · omega
  · split <;> omega

end MoreLemmas

/-- C6 witness: the bounds hold on concrete video and podcast records. -/
theorem C6_snippet_bounds_witness :
    witVideoRec.Snippet.length ≤ 503 ∧ witPodRec.Snippet.length ≤ 403 :=
  ⟨(C6_snippet_bounds [witVideoEntry] trEmptyOk todayLit
      (Except.ok [witPodEntry])).1 witVideoRec (by decide),
   (C6_snippet_bounds [witVideoEntry] trEmptyOk todayLit
      (Except.ok [witPodEntry])).2 witPodRec (by decide)⟩

/-- C9: every video and podcast record snippet ends with the ellipsis
marker unconditionally; in particular a matching video entry with an
empty transcript produces a record whose snippet is exactly the
ellipsis. -/
theorem C9_snippet_always_ellipsis (entries : List VideoEntry)
    (tr : Str → Except Unit (List Str)) (today : Str)
    (pparse : Except Unit (List PodcastEntry)) :
    (∀ r ∈ videoRecords entries tr, ∃ s, r.Snippet = s ++ ellipsis) ∧
    (∀ r ∈ podRecords today pparse, ∃ s, r.Snippet = s ++ ellipsis) ∧
    videoRecords [witVideoEntry] trEmptyOk = [witVideoRec] ∧
    witVideoRec.Snippet = ellipsis := by
  refine ⟨?_, ?_, by decide, rfl⟩
  · intro r hr
    obtain ⟨e, -, -, segs, -, hrEq⟩ := mem_videoRecords hr
    subst hrEq
    exact ⟨_, rfl⟩
  · intro r hr
    obtain ⟨e, hrEq⟩ := mem_podRecords hr
    subst hrEq
    exact ⟨_, rfl⟩

/-- C9 witness: concrete video and podcast records end in the marker. -/
theorem C9_snippet_always_ellipsis_witness :
    (∃ s, witVideoRec.Snippet = s ++ ellipsis) ∧
    (∃ s, witPodRec.Snippet = s ++ ellipsis) :=
  ⟨(C9_snippet_always_ellipsis [witVideoEntry] trEmptyOk todayLit
      (Except.ok [witPodEntry])).1 witVideoRec (by decide),
   (C9_snippet_always_ellipsis [witVideoEntry] trEmptyOk todayLit
      (Except.ok [witPodEntry])).2.1 witPodRec (by decide)⟩

/-- C10: a candidate with no href attribute still yields a record, with
a null link; only candidates whose text or attribute extraction raises
are silently dropped. -/
theorem C10_missing_href_still_appended (today t : Str) :
    webRecords today (Except.ok (200, [⟨Except.ok t, Except.ok none⟩])) =
      [{ Source_Type := srcWeb, Timestamp := today, Headline := t,
         Snippet := snippetWebPlaceholder, Link := none }] ∧
    (∀ a : ArticleElem, a.text = Except.error () → processArticle today a = none) ∧
    (∀ a : ArticleElem, a.href = Except.error () → processArticle today a = none) := by
  refine ⟨?_, ?_, ?_⟩
  · rw [webRecords_singleton]
    rfl
  · intro a h
    obtain ⟨t', l⟩ := a
    simp only at h
    subst h
    cases l <;> rfl
  · intro a h
    obtain ⟨t', l⟩ := a
    simp only at h
    subst h
    cases t' <;> rfl

/-- C10 witness: a concrete no-href element is appended with a null
link, concrete raising elements are dropped. -/
theorem C10_missing_href_still_appended_witness :
    webRecords todayLit (Except.ok (200, [⟨Except.ok headlineLit, Except.ok none⟩])) =
      [{ Source_Type := srcWeb, Timestamp := todayLit, Headline := headlineLit,
         Snippet := snippetWebPlaceholder, Link := none }] ∧
    processArticle todayLit elemBadText = none ∧
    processArticle todayLit elemBadHref = none :=
  ⟨(C10_missing_href_still_appended todayLit headlineLit).1,
   (C10_missing_href_still_appended todayLit headlineLit).2.1 elemBadText rfl,
   (C10_missing_href_still_appended todayLit headlineLit).2.2 elemBadHref rfl⟩

/-- C3: every dataset produced by a completed run is ordered by source:
web records before video records before podcast records. -/
theorem C3_run_ordered (today : Str) (f : Except Unit (Nat × List ArticleElem))
    (vparse : Except Unit (List VideoEntry)) (tr : Str → Except Unit (List Str))
    (pparse : Except Unit (List PodcastEntry)) (ds : List Record)
    (h : run today f vparse tr pparse = Except.ok ds) :
    ds.Pairwise (fun a b => sourceRank a ≤ sourceRank b) := by
  cases vparse with
  | error e => simp [run, fetch_youtube_intelligence] at h
  | ok entries =>
    rw [run_ok] at h
    injection h with h
    subst h
    rw [List.pairwise_append]
    refine ⟨?_, ?_, ?_⟩
    · rw [List.pairwise_append]
      refine ⟨?_, ?_, ?_⟩
      · exact List.pairwise_of_forall_mem_list fun a ha b hb => by
          rw [sourceRank_web ha, sourceRank_web hb]
      · exact List.pairwise_of_forall_mem_list fun a ha b hb => by
          rw [sourceRank_video ha, sourceRank_video hb]
      · intro a ha b hb
        rw [sourceRank_web ha, sourceRank_video hb]
        omega
    · exact List.pairwise_of_forall_mem_list fun a ha b hb => by
        rw [sourceRank_pod ha, sourceRank_pod hb]
    · intro a ha b hb
      rw [sourceRank_pod hb]
      exact sourceRank_le_two a

/-- C3 witness: a concrete completed run yields an ordered dataset. -/
theorem C3_run_ordered_witness :
    List.Pairwise (fun a b => sourceRank a ≤ sourceRank b)
      [recNoHref, witVideoRec, witPodRec] :=
  C3_run_ordered todayLit (Except.ok (200, [elemNoHref]))
    (Except.ok [witVideoEntry]) trEmptyOk (Except.ok [witPodEntry])
    [recNoHref, witVideoRec, witPodRec] (by decide)

/-- C2 counterexample: a video feed parse failure escapes its adapter
and aborts run, even though the podcast feed would contribute a
record; the remaining adapters results are not preserved. -/
theorem C2_counterexample :
    run todayLit (Except.ok (200, [elemNoHref])) (Except.error ()) trEmptyOk
      (Except.ok [witPodEntry]) = Except.error () ∧
    podRecords todayLit (Except.ok [witPodEntry]) ≠ [] := by
  constructor
  · rfl
  · decide

/-- C2 amended: a web fetch failure, a per-entry transcript failure and
a podcast parse failure are each contained — whenever the video feed
parse succeeds, run completes with all three contributions, whatever
the other collaborators did; only a video feed parse failure escapes
its adapter and aborts the run. -/
theorem C2_amended_containment (today : Str)
    (f : Except Unit (Nat × List ArticleElem)) (entries : List VideoEntry)
    (tr : Str → Except Unit (List Str)) (pparse : Except Unit (List PodcastEntry)) :
    run today f (Except.ok entries) tr pparse =
      Except.ok ((webRecords today f ++ videoRecords entries tr) ++
        podRecords today pparse) :=
  run_ok today f entries tr pparse

/-- C8 counterexample: an empty href does not start with http, yet the
produced record keeps it as the empty string without the origin. -/
theorem C8_counterexample :
    startsWith httpLit [] = false ∧
    webRecords todayLit (Except.ok (200, [elemEmptyHref])) =
      [{ Source_Type := srcWeb, Timestamp := todayLit, Headline := headlineLit,
         Snippet := snippetWebPlaceholder, Link := some [] }] ∧
    startsWith originCNBC [] = false := by
  refine ⟨by decide, by decide, by decide⟩

/-- C8 amended: a NON-EMPTY href not starting with http is prefixed
with the site origin, so the record link starts with the origin; an
href starting with http is kept unchanged; an empty or missing href is
also kept unchanged (Python falsiness). -/
theorem C8_amended_link_rewrite (today t l : Str) :
    (l ≠ [] → startsWith httpLit l = false →
      webRecords today (Except.ok (200, [⟨Except.ok t, Except.ok (some l)⟩])) =
        [{ Source_Type := srcWeb, Timestamp := today, Headline := t,
           Snippet := snippetWebPlaceholder, Link := some (originCNBC ++ l) }] ∧
      startsWith originCNBC (originCNBC ++ l) = true) ∧
    (startsWith httpLit l = true →
      webRecords today (Except.ok (200, [⟨Except.ok t, Except.ok (some l)⟩])) =
        [{ Source_Type := srcWeb, Timestamp := today, Headline := t,
           Snippet := snippetWebPlaceholder, Link := some l }]) ∧
    normalizeLink (some []) = some [] ∧
    normalizeLink none = none := by
  refine ⟨?_, ?_, by decide, rfl⟩
  · intro h1 h2
    rw [webRecords_singleton, normalizeLink_rel h1 h2]
    exact ⟨rfl, startsWith_append_self originCNBC l⟩
  · intro h
    rw [webRecords_singleton, normalizeLink_abs h]

/-- C8 witness: a concrete relative href is prefixed; a concrete
absolute href is unchanged. -/
theorem C8_amended_link_rewrite_witness :
    (webRecords todayLit (Except.ok (200, [⟨Except.ok headlineLit,
        Except.ok (some relLinkLit)⟩])) =
      [{ Source_Type := srcWeb, Timestamp := todayLit, Headline := headlineLit,
         Snippet := snippetWebPlaceholder,
         Link := some (originCNBC ++ relLinkLit) }] ∧
      startsWith originCNBC (originCNBC ++ relLinkLit) = true) ∧
    webRecords todayLit (Except.ok (200, [⟨Except.ok headlineLit,
        Except.ok (some absLinkLit)⟩])) =
      [{ Source_Type := srcWeb, Timestamp := todayLit, Headline := headlineLit,
         Snippet := snippetWebPlaceholder, Link := some absLinkLit }] :=
  ⟨(C8_amended_link_rewrite todayLit headlineLit relLinkLit).1
      (by decide) (by decide),
   (C8_amended_link_rewrite todayLit headlineLit absLinkLit).2.1 (by decide)⟩

/-- C1 counterexample: an article element whose extracted title is the
empty string is appended anyway, so a record with an empty headline
reaches the dataset of a completed run. -/
theorem C1_counterexample :
    ∃ ds, run todayLit (Except.ok (200, [elemEmptyTitle])) (Except.ok [])
        trEmptyOk (Except.ok []) = Except.ok ds ∧ ∃ r ∈ ds, r.Headline = [] :=
  ⟨[recEmptyHeadline], by decide, recEmptyHeadline, by decide, rfl⟩

/-- C1 amended: only the video adapter guarantees non-empty headlines —
each of its records carries a title containing one of the non-empty
keywords; the web-news and podcast adapters append the extracted title
verbatim, even when it is empty. -/
theorem C1_video_headline_nonempty (entries : List VideoEntry)
    (tr : Str → Except Unit (List Str)) :
    ∀ r ∈ videoRecords entries tr, r.Headline ≠ [] := by
  intro r hr
  obtain ⟨e, -, hk, segs, -, hrEq⟩ := mem_videoRecords hr
  subst hrEq
  show e.title ≠ []
  intro hnil
  rw [List.any_eq_true] at hk
  obtain ⟨k, hkmem, hc⟩ := hk
  rw [hnil] at hc
  simp only [keywords, List.mem_cons, List.not_mem_nil, or_false] at hkmem
  rcases hkmem with rfl | rfl | rfl | rfl | rfl <;> exact absurd hc (by decide)

/-- C1 witness: a concrete video record has a non-empty headline. -/
theorem C1_video_headline_nonempty_witness : witVideoRec.Headline ≠ [] :=
  C1_video_headline_nonempty [witVideoEntry] trEmptyOk witVideoRec (by decide)
